import Mathlib

/-! # sigv4authextension: credential resolution and the transport factory

A shallow embedding of `pkg/sigv4authextension/extension.go`.

Go pointers and interface values that may be nil are `Option`s; Go's
`(value, error)` results are pairs of `Option`s, so that "nil provider"
and "nil error" are statements about data and not about a type.  A Go
function that can dereference a nil pointer returns an `Outcome`, which
is either the returned values or a panic.

The AWS SDK and the process environment are outside the repository.  They
are a `World`: what `os.Getenv`, `awsconfig.LoadDefaultConfig`, the
default chain and the STS service answer.  Every call made into the world
is recorded in a trace of `Event`s, in program order.
-/

namespace sigv4authextension

/-- A Go `error` value, identified by its message. -/
structure GoError where
  msg : String
deriving DecidableEq, Repr

/-- The run-time panic of a nil pointer dereference. -/
def nilDereference : String :=
  "runtime error: invalid memory address or nil pointer dereference"

/-- What a Go call does: it returns its results, or it panics. -/
inductive Outcome (α : Type) where
  | returned (a : α)
  | panicked (reason : String)
deriving DecidableEq, Repr

/-- The SDK value `aws.Credentials`. -/
structure Credentials where
  AccessKeyID : String
  SecretAccessKey : String
  SessionToken : String
  Source : String
  CanExpire : Bool
  Expires : Nat
deriving DecidableEq, Repr

/-- The SDK value `aws.Config`, as far as the extension touches it: the
region, the credentials provider, and a handle for all other settings. -/
structure AwsConfig (P : Type) where
  Region : String
  Credentials : P
  settings : Nat
deriving DecidableEq, Repr

/-- The client `sts.NewFromConfig` builds: it keeps a copy of the
configuration it was made from. -/
structure STSClient (P : Type) where
  options : AwsConfig P
deriving DecidableEq, Repr

/-- The implementations of the interface `aws.CredentialsProvider` that
can occur in this package.
* `chain h`: the provider `LoadDefaultConfig` resolved (handle `h`);
* `static v`: `credentials.StaticCredentialsProvider` with value `v`;
* `assumeRole c arn`: `stscreds.AssumeRoleProvider` over client `c`;
* `cache p`: `aws.CredentialsCache` around `p`. -/
inductive CredentialsProvider where
  | chain (handle : Nat)
  | static (Value : Credentials)
  | assumeRole (client : STSClient CredentialsProvider) (RoleARN : String)
  | cache (provider : CredentialsProvider)

/-- Modelled from the spec: the `AssumeRole` block of `Config`, declared in
`config.go`, which is not part of the source under study.  The fields are
the ones `extension.go` reads and the spec lists (`arn`, `stsRegion`). -/
structure AssumeRole where
  ARN : String
  STSRegion : String
deriving DecidableEq, Repr

/-- Modelled from the spec: the `Config` struct, declared in `config.go`,
which is not part of the source under study.  The fields are the ones
`extension.go` reads: `Region`, `Service`, `AssumeRole` and the unexported
pointer `credsProvider` (nil when no provider was resolved). -/
structure Config where
  Region : String
  Service : String
  AssumeRole : AssumeRole
  credsProvider : Option CredentialsProvider

/-- A `*zap.Logger`, identified by a handle. -/
structure Logger where
  handle : Nat
deriving DecidableEq, Repr

/-- A non-nil `http.RoundTripper`, identified by a handle. -/
structure Transport where
  handle : Nat
deriving DecidableEq, Repr

/-- The SDK value `v4.Signer`: its options. -/
structure Signer where
  LogSigning : Bool
  DisableHeaderHoisting : Bool
  DisableURIPathEscaping : Bool
deriving DecidableEq, Repr

/-- The call `sigv4.NewSigner()` with no option functions: all options at
their zero value. -/
def sigv4.NewSigner : Signer :=
  { LogSigning := false, DisableHeaderHoisting := false, DisableURIPathEscaping := false }

/-- Modelled from the spec: the `SigningRoundTripper` struct, declared in
`signingroundtripper.go`, which is not part of the source under study.  The
fields are those of the struct literal in `RoundTripper`. -/
structure SigningRoundTripper where
  transport : Option Transport
  signer : Signer
  region : String
  service : String
  credsProvider : Option CredentialsProvider
  awsSDKInfo : String
  logger : Option Logger

/-- The struct `Sigv4Auth`.  The embedded `component.StartFunc` and
`component.ShutdownFunc` are nil function values and are left out. -/
structure Sigv4Auth where
  cfg : Option Config
  logger : Option Logger
  awsSDKInfo : String

/-- The calls a run makes outside the package, in program order. -/
inductive Event where
  | LoadDefaultConfig (region : String)
  | Getenv (key : String)
  | Retrieve (p : CredentialsProvider)

/-- The world outside the package.
* `Getenv`: `os.Getenv`; an unset variable reads as the empty string;
* `LoadDefaultConfig r`: `awsconfig.LoadDefaultConfig` with the single
  option `WithRegion(r)`; on success the SDK always installs a provider;
* `RetrieveChain h`: `Retrieve` on the provider with handle `h`;
* `AssumeRole c arn creds`: the answer of the STS service to the
  `AssumeRole` call made through client `c` and signed with `creds`;
* `STSOperationError err`: the error the STS client reports when it cannot
  obtain the credentials to sign its call with, `err` being the cause. -/
structure World where
  Getenv : String → String
  LoadDefaultConfig : String → Except GoError (AwsConfig CredentialsProvider)
  RetrieveChain : Nat → Except GoError Credentials
  AssumeRole : STSClient CredentialsProvider → String → Credentials →
    Except GoError Credentials
  STSOperationError : GoError → GoError

/-- The result of running a Go function against a world: what the call did
and the calls it made into the world. -/
structure Run (α : Type) where
  outcome : Outcome α
  trace : List Event

/-- The name the SDK gives to static credentials. -/
def StaticCredentialsName : String := "StaticCredentials"

/-- The SDK function `credentials.NewStaticCredentialsProvider`. -/
def credentials.NewStaticCredentialsProvider (key secret session : String) :
    CredentialsProvider :=
  .static { AccessKeyID := key, SecretAccessKey := secret, SessionToken := session,
            Source := "", CanExpire := false, Expires := 0 }

/-- The SDK method `StaticCredentialsProvider.Retrieve`: an error when the
key or the secret is empty, otherwise the stored value with its source
filled in. -/
def StaticCredentialsProvider.Retrieve (v : Credentials) : Except GoError Credentials :=
  if v.AccessKeyID = "" ∨ v.SecretAccessKey = "" then
    .error ⟨"static credentials are empty"⟩
  else if v.Source.length = 0 then
    .ok { v with Source := StaticCredentialsName }
  else
    .ok v

/-- The SDK function `sts.NewFromConfig`: the client copies the
configuration it is given. -/
def sts.NewFromConfig (cfg : AwsConfig CredentialsProvider) : STSClient CredentialsProvider :=
  { options := cfg }

/-- The SDK function `stscreds.NewAssumeRoleProvider`. -/
def stscreds.NewAssumeRoleProvider (client : STSClient CredentialsProvider)
    (roleARN : String) : CredentialsProvider :=
  .assumeRole client roleARN

/-- The SDK function `aws.NewCredentialsCache`. -/
def aws.NewCredentialsCache (provider : CredentialsProvider) : CredentialsProvider :=
  .cache provider

/-- The message with which `aws.CredentialsCache` wraps the error of the
provider it could not refresh from. -/
def failedToRefresh (err : GoError) : GoError :=
  ⟨"failed to refresh cached credentials, " ++ err.msg⟩

/-- The interface method `Retrieve` on a provider, as first called on a
provider that was just built, with the trace of the `Retrieve` calls made.
* The assume-role provider calls STS through its client; the client signs
  the call with its own credentials, which it retrieves first.
* A new cache holds nothing, so it asks the provider it wraps; it hands on
  the credentials it gets and wraps an error as `failedToRefresh`. -/
def CredentialsProvider.Retrieve (w : World) :
    CredentialsProvider → Except GoError Credentials × List Event
  | .chain h => (w.RetrieveChain h, [.Retrieve (.chain h)])
  | .static v => (StaticCredentialsProvider.Retrieve v, [.Retrieve (.static v)])
  | .assumeRole ⟨⟨region, signing, settings⟩⟩ arn =>
    (match (CredentialsProvider.Retrieve w signing).1 with
      | .error err => .error (w.STSOperationError err)
      | .ok creds => w.AssumeRole ⟨⟨region, signing, settings⟩⟩ arn creds,
      .Retrieve (.assumeRole ⟨⟨region, signing, settings⟩⟩ arn) ::
        (CredentialsProvider.Retrieve w signing).2)
  | .cache p =>
    (match (CredentialsProvider.Retrieve w p).1 with
      | .error err => .error (failedToRefresh err)
      | .ok creds => .ok creds,
      .Retrieve (.cache p) :: (CredentialsProvider.Retrieve w p).2)

/-- Modelled from the spec: `signingroundtripper.go`, where the transport
signs requests, is not part of the source under study.  The signing step 4
of the spec calls `Retrieve` on the provider the transport holds, so a
transport can sign only when its `credsProvider` is non-nil. -/
def SigningRoundTripper.usable (rt : SigningRoundTripper) : Bool :=
  rt.credsProvider.isSome

/-- The method `(*Sigv4Auth).RoundTripper`: builds the signing transport
from the extension's configuration.  A nil receiver or a nil `cfg` is
dereferenced and panics.  The second component is the receiver object as
the call leaves it; the method body assigns to no field of it. -/
def Sigv4Auth.RoundTripper (_w : World) (sa : Option Sigv4Auth) (base : Option Transport) :
    Run (Option SigningRoundTripper × Option GoError) × Option Sigv4Auth :=
  match sa with
  | none => (⟨.panicked nilDereference, []⟩, sa)
  | some s =>
    match s.cfg with
    | none => (⟨.panicked nilDereference, []⟩, sa)
    | some cfg =>
      let signer := sigv4.NewSigner
      let rt : SigningRoundTripper :=
        { transport := base
          signer := signer
          region := cfg.Region
          service := cfg.Service
          credsProvider := cfg.credsProvider
          awsSDKInfo := s.awsSDKInfo
          logger := s.logger }
      (⟨.returned (some rt, none), []⟩, sa)

/-- A gRPC `PerRPCCredentials` value; the package never builds one. -/
structure PerRPCCredentialsValue where
  handle : Nat
deriving DecidableEq, Repr

/-- The function `errors.New`. -/
def errors.New (text : String) : GoError := ⟨text⟩

/-- The method `(*Sigv4Auth).PerRPCCredentials`: never implemented.  The
receiver is not dereferenced. -/
def Sigv4Auth.PerRPCCredentials (_w : World) (_sa : Option Sigv4Auth) :
    Run (Option PerRPCCredentialsValue × Option GoError) :=
  ⟨.returned (none, some (errors.New "Not Implemented")), []⟩

/-- The function `NewSigv4Extension`; `sdkName` and `sdkVersion` are the
SDK constants `aws.SDKName` and `aws.SDKVersion`. -/
def NewSigv4Extension (sdkName sdkVersion : String) (cfg : Option Config)
    (logger : Option Logger) : Option Sigv4Auth :=
  let awsSDKInfo := sdkName ++ "/" ++ sdkVersion
  some { cfg := cfg, logger := logger, awsSDKInfo := awsSDKInfo }

/-- Lines 80 to 90 of `getCredsProviderFromConfig`: the configuration as
it stands when the eager `Retrieve` is reached.  The role provider, when an
ARN is set, is built over an STS client made from the configuration as
loaded; the static pair, when both override variables are non-empty,
replaces whatever provider is there. -/
def selectCredentials (w : World) (cfg : Config) (awscfg : AwsConfig CredentialsProvider) :
    AwsConfig CredentialsProvider :=
  let awscfg1 : AwsConfig CredentialsProvider :=
    if cfg.AssumeRole.ARN ≠ "" then
      let stsSvc := sts.NewFromConfig awscfg
      let provider := stscreds.NewAssumeRoleProvider stsSvc cfg.AssumeRole.ARN
      { awscfg with Credentials := aws.NewCredentialsCache provider }
    else awscfg
  let customAccessKey := w.Getenv "CUSTOM_AWS_ACCESS_KEY"
  let customSecretKey := w.Getenv "CUSTOM_AWS_SECRET_ACCESS_KEY"
  if customAccessKey ≠ "" ∧ customSecretKey ≠ "" then
    { awscfg1 with
      Credentials :=
        credentials.NewStaticCredentialsProvider customAccessKey customSecretKey "" }
  else awscfg1

/-- The function `getCredsProviderFromConfig`: load the default chain for
the STS region, select the provider (`selectCredentials`), and retrieve
once from it before handing it out.  A nil `cfg` is dereferenced before
anything is loaded. -/
def getCredsProviderFromConfig (w : World) (cfg : Option Config) :
    Run (Option CredentialsProvider × Option GoError) :=
  match cfg with
  | none => ⟨.panicked nilDereference, []⟩
  | some cfg =>
    match w.LoadDefaultConfig cfg.AssumeRole.STSRegion with
    | .error err =>
      ⟨.returned (none, some err), [.LoadDefaultConfig cfg.AssumeRole.STSRegion]⟩
    | .ok awscfg =>
      let awscfg := selectCredentials w cfg awscfg
      let r := awscfg.Credentials.Retrieve w
      let trace : List Event :=
        [.LoadDefaultConfig cfg.AssumeRole.STSRegion,
         .Getenv "CUSTOM_AWS_ACCESS_KEY",
         .Getenv "CUSTOM_AWS_SECRET_ACCESS_KEY"] ++ r.2
      match r.1 with
      | .error err => ⟨.returned (none, some err), trace⟩
      | .ok _ => ⟨.returned (some awscfg.Credentials, none), trace⟩

/-- The world `w` with neither override variable set: both read as the
empty string, everything else is as in `w`. -/
def withoutOverride (w : World) : World :=
  { w with
    Getenv := fun k =>
      if k = "CUSTOM_AWS_ACCESS_KEY" ∨ k = "CUSTOM_AWS_SECRET_ACCESS_KEY" then ""
      else w.Getenv k }

/-! ## Sample worlds -/

/-- The credentials the sample default chain yields. -/
def chainCreds : Credentials :=
  { AccessKeyID := "AKIDCHAIN", SecretAccessKey := "chain-secret", SessionToken := "",
    Source := "EnvConfigCredentials", CanExpire := false, Expires := 0 }

/-- A world in which the default configuration loads and its chain yields
`chainCreds`, the STS service refuses every role, and the two override
variables hold `ak` and `sk`. -/
def sampleWorld (ak sk : String) : World :=
  { Getenv := fun k =>
      if k = "CUSTOM_AWS_ACCESS_KEY" then ak
      else if k = "CUSTOM_AWS_SECRET_ACCESS_KEY" then sk
      else ""
    LoadDefaultConfig := fun r => .ok { Region := r, Credentials := .cache (.chain 0), settings := 0 }
    RetrieveChain := fun _ => .ok chainCreds
    AssumeRole := fun _ _ _ => .error ⟨"AccessDenied"⟩
    STSOperationError := fun err => ⟨"operation error STS: AssumeRole, " ++ err.msg⟩ }

/-- The session credentials the sample STS service hands out. -/
def roleCreds : Credentials :=
  { AccessKeyID := "ASIAROLE", SecretAccessKey := "role-secret", SessionToken := "role-token",
    Source := "AssumeRoleProvider", CanExpire := true, Expires := 3600 }

/-- A world like `sampleWorld ak sk` in which the STS service grants every
role to a caller that signs with `chainCreds`. -/
def grantingWorld (ak sk : String) : World :=
  { sampleWorld ak sk with
    AssumeRole := fun _ _ creds =>
      if creds = chainCreds then .ok roleCreds else .error ⟨"AccessDenied"⟩ }

/-- A world in which nothing can be loaded or retrieved. -/
def offlineWorld : World :=
  { Getenv := fun _ => ""
    LoadDefaultConfig := fun _ => .error ⟨"failed to load default config"⟩
    RetrieveChain := fun _ => .error ⟨"no credentials"⟩
    AssumeRole := fun _ _ _ => .error ⟨"no network"⟩
    STSOperationError := fun err => ⟨"operation error STS: AssumeRole, " ++ err.msg⟩ }

/-- A configuration with an assume-role ARN. -/
def roleConfig : Config :=
  { Region := "us-east-1", Service := "execute-api",
    AssumeRole := { ARN := "arn:aws:iam::123456789012:role/collector", STSRegion := "us-west-2" },
    credsProvider := none }

/-- A configuration without an assume-role ARN. -/
def plainConfig : Config :=
  { Region := "eu-west-1", Service := "aps",
    AssumeRole := { ARN := "", STSRegion := "" },
    credsProvider := none }

/-! ## Shared lemmas -/

/-- A provider's `Retrieve` makes only `Retrieve` calls into the world. -/
theorem Retrieve_trace_events (w : World) :
    ∀ (p : CredentialsProvider), ∀ e ∈ (p.Retrieve w).2, ∃ q, e = Event.Retrieve q
  | .chain h, e, he => by
    simp [CredentialsProvider.Retrieve] at he; exact ⟨_, he⟩
  | .static v, e, he => by
    simp [CredentialsProvider.Retrieve] at he; exact ⟨_, he⟩
  | .assumeRole ⟨⟨_, signing, _⟩⟩ arn, e, he => by
    simp only [CredentialsProvider.Retrieve, List.mem_cons] at he
    rcases he with he | he
    · exact ⟨_, he⟩
    · exact Retrieve_trace_events w signing e he
  | .cache q, e, he => by
    simp only [CredentialsProvider.Retrieve, List.mem_cons] at he
    rcases he with he | he
    · exact ⟨_, he⟩
    · exact Retrieve_trace_events w q e he

/-- The first `Retrieve` call a provider's `Retrieve` records is the one on
the provider itself. -/
theorem Retrieve_trace_head (w : World) (p : CredentialsProvider) :
    (p.Retrieve w).2.head? = some (Event.Retrieve p) := by
  cases p with
  | chain h => rfl
  | static v => rfl
  | assumeRole c arn =>
    obtain ⟨⟨region, signing, settings⟩⟩ := c
    rfl
  | cache q => rfl

/-- With both keys non-empty the static provider yields exactly the pair it
was built from, with the session token it was given. -/
theorem static_Retrieve_ok (w : World) (key secret session : String)
    (hk : key ≠ "") (hs : secret ≠ "") :
    (credentials.NewStaticCredentialsProvider key secret session).Retrieve w =
      (.ok { AccessKeyID := key, SecretAccessKey := secret, SessionToken := session,
             Source := StaticCredentialsName, CanExpire := false, Expires := 0 },
        [Event.Retrieve (credentials.NewStaticCredentialsProvider key secret session)]) := by
  simp [credentials.NewStaticCredentialsProvider, CredentialsProvider.Retrieve,
    StaticCredentialsProvider.Retrieve, hk, hs]

/-- With both override variables non-empty the provider selected is the
static pair, whatever the configuration. -/
theorem selectCredentials_override (w : World) (cfg : Config)
    (awscfg : AwsConfig CredentialsProvider)
    (hk : w.Getenv "CUSTOM_AWS_ACCESS_KEY" ≠ "")
    (hs : w.Getenv "CUSTOM_AWS_SECRET_ACCESS_KEY" ≠ "") :
    (selectCredentials w cfg awscfg).Credentials =
      credentials.NewStaticCredentialsProvider (w.Getenv "CUSTOM_AWS_ACCESS_KEY")
        (w.Getenv "CUSTOM_AWS_SECRET_ACCESS_KEY") "" := by
  simp [selectCredentials, hk, hs]

/-- With one of the override variables empty the provider selected is the
role provider in its cache when an ARN is set, and the loaded one
otherwise. -/
theorem selectCredentials_no_override (w : World) (cfg : Config)
    (awscfg : AwsConfig CredentialsProvider)
    (h : w.Getenv "CUSTOM_AWS_ACCESS_KEY" = "" ∨ w.Getenv "CUSTOM_AWS_SECRET_ACCESS_KEY" = "") :
    (selectCredentials w cfg awscfg).Credentials =
      if cfg.AssumeRole.ARN ≠ "" then
        aws.NewCredentialsCache
          (stscreds.NewAssumeRoleProvider (sts.NewFromConfig awscfg) cfg.AssumeRole.ARN)
      else awscfg.Credentials := by
  have hn : ¬ (w.Getenv "CUSTOM_AWS_ACCESS_KEY" ≠ "" ∧
      w.Getenv "CUSTOM_AWS_SECRET_ACCESS_KEY" ≠ "") := by
    rintro ⟨h1, h2⟩
    rcases h with h | h
    · exact h1 h
    · exact h2 h
  unfold selectCredentials
  simp only [hn, if_false]
  split <;> rfl

/-- The run of `getCredsProviderFromConfig` once the default configuration
has loaded: the eager `Retrieve` on the selected provider decides. -/
theorem getCreds_loaded (w : World) (cfg : Config) (awscfg : AwsConfig CredentialsProvider)
    (hload : w.LoadDefaultConfig cfg.AssumeRole.STSRegion = .ok awscfg) :
    getCredsProviderFromConfig w (some cfg) =
      ⟨match ((selectCredentials w cfg awscfg).Credentials.Retrieve w).1 with
        | .error err => .returned (none, some err)
        | .ok _ => .returned (some (selectCredentials w cfg awscfg).Credentials, none),
       [.LoadDefaultConfig cfg.AssumeRole.STSRegion,
        .Getenv "CUSTOM_AWS_ACCESS_KEY",
        .Getenv "CUSTOM_AWS_SECRET_ACCESS_KEY"] ++
         ((selectCredentials w cfg awscfg).Credentials.Retrieve w).2⟩ := by
  simp only [getCredsProviderFromConfig, hload]
  split <;> rfl

/-- The run of `getCredsProviderFromConfig` when the default configuration
does not load. -/
theorem getCreds_load_failed (w : World) (cfg : Config) (err : GoError)
    (hload : w.LoadDefaultConfig cfg.AssumeRole.STSRegion = .error err) :
    getCredsProviderFromConfig w (some cfg) =
      ⟨.returned (none, some err), [.LoadDefaultConfig cfg.AssumeRole.STSRegion]⟩ := by
  simp only [getCredsProviderFromConfig, hload]

/-- A provider's `Retrieve` does not look at the process environment. -/
theorem Retrieve_withoutOverride (w : World) :
    ∀ (p : CredentialsProvider), p.Retrieve (withoutOverride w) = p.Retrieve w
  | .chain _ => rfl
  | .static _ => rfl
  | .assumeRole ⟨⟨_, signing, _⟩⟩ arn => by
    simp only [CredentialsProvider.Retrieve, Retrieve_withoutOverride w signing]
    rfl
  | .cache q => by
    simp only [CredentialsProvider.Retrieve, Retrieve_withoutOverride w q]

/-- Whenever `getCredsProviderFromConfig` returns an error, the provider
it returns with it is nil. -/
theorem getCreds_error_provider_nil (w : World) (cfg : Config)
    (p : Option CredentialsProvider) (err : GoError)
    (h : (getCredsProviderFromConfig w (some cfg)).outcome = .returned (p, some err)) :
    p = none := by
  cases hload : w.LoadDefaultConfig cfg.AssumeRole.STSRegion with
  | error e =>
    rw [getCreds_load_failed w cfg e hload] at h
    simp only [Outcome.returned.injEq, Prod.mk.injEq] at h
    exact h.1.symm
  | ok awscfg =>
    rw [getCreds_loaded w cfg awscfg hload] at h
    cases hret : ((selectCredentials w cfg awscfg).Credentials.Retrieve w).1 with
    | error e =>
      simp only [hret, Outcome.returned.injEq, Prod.mk.injEq] at h
      exact h.1.symm
    | ok creds =>
      simp [hret] at h

/-! ## Resolution: precedence of the static override -/

/-- C1: when the configuration names a role ARN and both override variables
are non-empty, and the default configuration loads, resolution returns a
provider, with a nil error, whose `Retrieve` yields the static pair taken
from the two variables; the provider is the static one and not the cached
assume-role provider built for the ARN. -/
theorem static_override_beats_assume_role (w : World) (cfg : Config)
    (awscfg : AwsConfig CredentialsProvider)
    (harn : cfg.AssumeRole.ARN ≠ "")
    (hk : w.Getenv "CUSTOM_AWS_ACCESS_KEY" ≠ "")
    (hs : w.Getenv "CUSTOM_AWS_SECRET_ACCESS_KEY" ≠ "")
    (hload : w.LoadDefaultConfig cfg.AssumeRole.STSRegion = .ok awscfg) :
    ∃ p creds,
      (getCredsProviderFromConfig w (some cfg)).outcome = .returned (some p, none) ∧
      (p.Retrieve w).1 = .ok creds ∧
      creds.AccessKeyID = w.Getenv "CUSTOM_AWS_ACCESS_KEY" ∧
      creds.SecretAccessKey = w.Getenv "CUSTOM_AWS_SECRET_ACCESS_KEY" ∧
      p = credentials.NewStaticCredentialsProvider (w.Getenv "CUSTOM_AWS_ACCESS_KEY")
            (w.Getenv "CUSTOM_AWS_SECRET_ACCESS_KEY") "" ∧
      p ≠ aws.NewCredentialsCache
            (stscreds.NewAssumeRoleProvider (sts.NewFromConfig awscfg) cfg.AssumeRole.ARN) ∧
      (selectCredentials { w with Getenv := fun _ => "" } cfg awscfg).Credentials =
        aws.NewCredentialsCache
          (stscreds.NewAssumeRoleProvider (sts.NewFromConfig awscfg) cfg.AssumeRole.ARN) := by
  have hsel := selectCredentials_override w cfg awscfg hk hs
  have hret := static_Retrieve_ok w _ _ "" hk hs
  refine ⟨_, _, ?_, congrArg Prod.fst hret, rfl, rfl, rfl, ?_, ?_⟩
  · rw [getCreds_loaded w cfg awscfg hload, hsel, hret]
  · simp [credentials.NewStaticCredentialsProvider, aws.NewCredentialsCache]
  · simp [selectCredentials, harn]

/-- C1, at a concrete input: a role ARN is configured, both variables are
set, and the provider returned yields the pair from the variables. -/
theorem static_override_beats_assume_role_witness :
    roleConfig.AssumeRole.ARN ≠ "" ∧
    (sampleWorld "AKIDOVERRIDE" "override-secret").Getenv "CUSTOM_AWS_ACCESS_KEY" ≠ "" ∧
    (sampleWorld "AKIDOVERRIDE" "override-secret").Getenv "CUSTOM_AWS_SECRET_ACCESS_KEY" ≠ "" ∧
    ∃ p creds,
      (getCredsProviderFromConfig (sampleWorld "AKIDOVERRIDE" "override-secret")
        (some roleConfig)).outcome = .returned (some p, none) ∧
      (p.Retrieve (sampleWorld "AKIDOVERRIDE" "override-secret")).1 = .ok creds ∧
      creds.AccessKeyID = "AKIDOVERRIDE" ∧
      creds.SecretAccessKey = "override-secret" :=
  ⟨by decide, by decide, by decide,
    (static_override_beats_assume_role (sampleWorld "AKIDOVERRIDE" "override-secret")
      roleConfig { Region := "us-west-2", Credentials := .cache (.chain 0), settings := 0 }
      (by decide) (by decide) (by decide) rfl).elim
      fun p h => h.elim fun creds h =>
        ⟨p, creds, h.1, h.2.1, h.2.2.1, h.2.2.2.1⟩⟩

/-- C10: when both override variables are non-empty and the default
configuration loads, resolution succeeds whatever the role ARN and whatever
the STS service would answer: the only `Retrieve` made is the one on the
static provider, no assume-role provider (cached or not) is retrieved from,
and the credentials obtained carry an empty session token. -/
theorem static_override_always_succeeds (w : World) (cfg : Config)
    (awscfg : AwsConfig CredentialsProvider)
    (hk : w.Getenv "CUSTOM_AWS_ACCESS_KEY" ≠ "")
    (hs : w.Getenv "CUSTOM_AWS_SECRET_ACCESS_KEY" ≠ "")
    (hload : w.LoadDefaultConfig cfg.AssumeRole.STSRegion = .ok awscfg) :
    getCredsProviderFromConfig w (some cfg) =
      ⟨.returned (some (credentials.NewStaticCredentialsProvider
          (w.Getenv "CUSTOM_AWS_ACCESS_KEY") (w.Getenv "CUSTOM_AWS_SECRET_ACCESS_KEY") ""), none),
        [.LoadDefaultConfig cfg.AssumeRole.STSRegion,
         .Getenv "CUSTOM_AWS_ACCESS_KEY",
         .Getenv "CUSTOM_AWS_SECRET_ACCESS_KEY",
         .Retrieve (credentials.NewStaticCredentialsProvider
          (w.Getenv "CUSTOM_AWS_ACCESS_KEY") (w.Getenv "CUSTOM_AWS_SECRET_ACCESS_KEY") "")]⟩ ∧
    (∀ c arn, Event.Retrieve (.assumeRole c arn) ∉
        (getCredsProviderFromConfig w (some cfg)).trace ∧
      Event.Retrieve (.cache (.assumeRole c arn)) ∉
        (getCredsProviderFromConfig w (some cfg)).trace) ∧
    ∃ creds,
      ((credentials.NewStaticCredentialsProvider (w.Getenv "CUSTOM_AWS_ACCESS_KEY")
          (w.Getenv "CUSTOM_AWS_SECRET_ACCESS_KEY") "").Retrieve w).1 = .ok creds ∧
      creds.SessionToken = "" := by
  have hsel := selectCredentials_override w cfg awscfg hk hs
  have hret := static_Retrieve_ok w _ _ "" hk hs
  have hrun : getCredsProviderFromConfig w (some cfg) = _ := getCreds_loaded w cfg awscfg hload
  rw [hsel, hret] at hrun
  refine ⟨hrun, ?_, _, congrArg Prod.fst hret, rfl⟩
  intro c arn
  rw [hrun]
  simp [credentials.NewStaticCredentialsProvider]

/-- C10, at a concrete input: the STS service refuses every role, the role
ARN is set, and resolution still succeeds on the static pair. -/
theorem static_override_always_succeeds_witness :
    (sampleWorld "AKIDOVERRIDE" "override-secret").Getenv "CUSTOM_AWS_ACCESS_KEY" ≠ "" ∧
    (sampleWorld "AKIDOVERRIDE" "override-secret").Getenv "CUSTOM_AWS_SECRET_ACCESS_KEY" ≠ "" ∧
    (sampleWorld "AKIDOVERRIDE" "override-secret").AssumeRole
        (sts.NewFromConfig { Region := "us-west-2", Credentials := .cache (.chain 0), settings := 0 })
        roleConfig.AssumeRole.ARN chainCreds = .error ⟨"AccessDenied"⟩ ∧
    (getCredsProviderFromConfig (sampleWorld "AKIDOVERRIDE" "override-secret")
        (some roleConfig)).outcome =
      .returned (some (credentials.NewStaticCredentialsProvider "AKIDOVERRIDE"
        "override-secret" ""), none) :=
  ⟨by decide, by decide, rfl,
    congrArg Run.outcome
      (static_override_always_succeeds (sampleWorld "AKIDOVERRIDE" "override-secret")
        roleConfig { Region := "us-west-2", Credentials := .cache (.chain 0), settings := 0 }
        (by decide) (by decide) rfl).1⟩

/-! ## Resolution: the failure policy -/

/-- C2: for every non-nil configuration `getCredsProviderFromConfig`
returns; its error is non-nil exactly when the default configuration fails
to load or the eager `Retrieve` on the selected provider fails, and the
error is then that failure; with an error the provider is nil; without one
the provider is non-nil and is the selected provider, whose `Retrieve`
succeeded and is recorded in the trace. -/
theorem getCreds_failure_policy (w : World) (cfg : Config) :
    ∃ p e, (getCredsProviderFromConfig w (some cfg)).outcome = .returned (p, e) ∧
      (e ≠ none ↔
        ((∃ err, w.LoadDefaultConfig cfg.AssumeRole.STSRegion = .error err ∧ e = some err) ∨
         (∃ awscfg err, w.LoadDefaultConfig cfg.AssumeRole.STSRegion = .ok awscfg ∧
            ((selectCredentials w cfg awscfg).Credentials.Retrieve w).1 = .error err ∧
            e = some err))) ∧
      (e ≠ none → p = none) ∧
      (e = none → ∃ awscfg creds,
        w.LoadDefaultConfig cfg.AssumeRole.STSRegion = .ok awscfg ∧
        p = some (selectCredentials w cfg awscfg).Credentials ∧
        ((selectCredentials w cfg awscfg).Credentials.Retrieve w).1 = .ok creds ∧
        Event.Retrieve (selectCredentials w cfg awscfg).Credentials ∈
          (getCredsProviderFromConfig w (some cfg)).trace) := by
  cases hload : w.LoadDefaultConfig cfg.AssumeRole.STSRegion with
  | error err =>
    rw [getCreds_load_failed w cfg err hload]
    exact ⟨none, some err, rfl, by simp, fun _ => rfl, by simp⟩
  | ok awscfg =>
    rw [getCreds_loaded w cfg awscfg hload]
    cases hret : ((selectCredentials w cfg awscfg).Credentials.Retrieve w).1 with
    | error err =>
      exact ⟨none, some err, rfl, by simp [hret], fun _ => rfl, by simp⟩
    | ok creds =>
      refine ⟨some _, none, rfl, by simp, by simp, fun _ => ⟨awscfg, creds, rfl, rfl, hret, ?_⟩⟩
      have hhead := Retrieve_trace_head w (selectCredentials w cfg awscfg).Credentials
      have hmem := List.mem_of_mem_head? hhead
      simp only [List.mem_append]
      exact Or.inr hmem

/-! ## Resolution: when the override is not active -/

/-- C5: when at least one of the two override variables is empty,
`getCredsProviderFromConfig` runs exactly as it does in the world where
neither is set: same outcome (provider and error) and same trace, for every
configuration, nil included. -/
theorem lone_override_variable_ignored (w : World) (cfg : Option Config)
    (h : w.Getenv "CUSTOM_AWS_ACCESS_KEY" = "" ∨ w.Getenv "CUSTOM_AWS_SECRET_ACCESS_KEY" = "") :
    getCredsProviderFromConfig w cfg = getCredsProviderFromConfig (withoutOverride w) cfg := by
  cases cfg with
  | none => rfl
  | some cfg =>
    cases hload : w.LoadDefaultConfig cfg.AssumeRole.STSRegion with
    | error err =>
      rw [getCreds_load_failed w cfg err hload,
        getCreds_load_failed (withoutOverride w) cfg err hload]
    | ok awscfg =>
      have hsel : (selectCredentials (withoutOverride w) cfg awscfg).Credentials =
          (selectCredentials w cfg awscfg).Credentials := by
        rw [selectCredentials_no_override w cfg awscfg h,
          selectCredentials_no_override (withoutOverride w) cfg awscfg (Or.inl (by simp [withoutOverride]))]
      rw [getCreds_loaded w cfg awscfg hload,
        getCreds_loaded (withoutOverride w) cfg awscfg hload, hsel, Retrieve_withoutOverride]

/-- C5, at a concrete input: only the access-key variable is set, a role is
configured, and the run is the one of the world with neither variable. -/
theorem lone_override_variable_ignored_witness :
    ((sampleWorld "AKIDOVERRIDE" "").Getenv "CUSTOM_AWS_ACCESS_KEY" = "" ∨
      (sampleWorld "AKIDOVERRIDE" "").Getenv "CUSTOM_AWS_SECRET_ACCESS_KEY" = "") ∧
    getCredsProviderFromConfig (sampleWorld "AKIDOVERRIDE" "") (some roleConfig) =
      getCredsProviderFromConfig (withoutOverride (sampleWorld "AKIDOVERRIDE" ""))
        (some roleConfig) :=
  ⟨Or.inr (by decide),
    lone_override_variable_ignored (sampleWorld "AKIDOVERRIDE" "") (some roleConfig)
      (Or.inr (by decide))⟩

/-- C6: when at least one override variable is empty and the default
configuration loads as `awscfg`, the provider that is retrieved eagerly,
and returned when that `Retrieve` succeeds, is: with a non-empty ARN, a
credentials cache around an assume-role provider for exactly that ARN over
an STS client made from `awscfg`; with an empty ARN, the provider of
`awscfg` itself, with nothing around it.  In both cases the fourth call of
the run is the `Retrieve` on that provider, and its error, if any, is the
error returned. -/
theorem provider_without_override (w : World) (cfg : Config)
    (awscfg : AwsConfig CredentialsProvider)
    (h : w.Getenv "CUSTOM_AWS_ACCESS_KEY" = "" ∨ w.Getenv "CUSTOM_AWS_SECRET_ACCESS_KEY" = "")
    (hload : w.LoadDefaultConfig cfg.AssumeRole.STSRegion = .ok awscfg) :
    (cfg.AssumeRole.ARN ≠ "" →
      getCredsProviderFromConfig w (some cfg) =
        ⟨match ((CredentialsProvider.cache
              (.assumeRole { options := awscfg } cfg.AssumeRole.ARN)).Retrieve w).1 with
          | .error err => .returned (none, some err)
          | .ok _ => .returned
              (some (.cache (.assumeRole { options := awscfg } cfg.AssumeRole.ARN)), none),
         [.LoadDefaultConfig cfg.AssumeRole.STSRegion,
          .Getenv "CUSTOM_AWS_ACCESS_KEY",
          .Getenv "CUSTOM_AWS_SECRET_ACCESS_KEY"] ++
           ((CredentialsProvider.cache
              (.assumeRole { options := awscfg } cfg.AssumeRole.ARN)).Retrieve w).2⟩ ∧
      (getCredsProviderFromConfig w (some cfg)).trace.get? 3 =
        some (.Retrieve (.cache (.assumeRole { options := awscfg } cfg.AssumeRole.ARN))) ∧
      sts.NewFromConfig awscfg = { options := awscfg } ∧
      aws.NewCredentialsCache
          (stscreds.NewAssumeRoleProvider (sts.NewFromConfig awscfg) cfg.AssumeRole.ARN) =
        .cache (.assumeRole { options := awscfg } cfg.AssumeRole.ARN)) ∧
    (cfg.AssumeRole.ARN = "" →
      getCredsProviderFromConfig w (some cfg) =
        ⟨match (awscfg.Credentials.Retrieve w).1 with
          | .error err => .returned (none, some err)
          | .ok _ => .returned (some awscfg.Credentials, none),
         [.LoadDefaultConfig cfg.AssumeRole.STSRegion,
          .Getenv "CUSTOM_AWS_ACCESS_KEY",
          .Getenv "CUSTOM_AWS_SECRET_ACCESS_KEY"] ++ (awscfg.Credentials.Retrieve w).2⟩ ∧
      (getCredsProviderFromConfig w (some cfg)).trace.get? 3 =
        some (.Retrieve awscfg.Credentials)) := by
  have hsel := selectCredentials_no_override w cfg awscfg h
  have hget : ∀ (p : CredentialsProvider) (a b c : Event),
      ([a, b, c] ++ (p.Retrieve w).2).get? 3 = some (.Retrieve p) := by
    intro p a b c
    have hhead := Retrieve_trace_head w p
    cases hp : (p.Retrieve w).2 with
    | nil => rw [hp] at hhead; cases hhead
    | cons e rest =>
      rw [hp] at hhead
      simp only [List.head?_cons, Option.some.injEq] at hhead
      subst hhead
      rfl
  constructor
  · intro harn
    rw [if_pos harn] at hsel
    have hrun := getCreds_loaded w cfg awscfg hload
    rw [hsel] at hrun
    refine ⟨hrun, ?_, rfl, rfl⟩
    rw [hrun]
    exact hget _ _ _ _
  · intro harn
    rw [if_neg (not_not.mpr harn)] at hsel
    have hrun := getCreds_loaded w cfg awscfg hload
    rw [hsel] at hrun
    refine ⟨hrun, ?_⟩
    rw [hrun]
    exact hget _ _ _ _

/-- C6, at a concrete input, in the assume-role branch: no override
variable is set, a role ARN is configured and STS grants the role; the
provider returned is the cache around the assume-role provider for that
ARN, over a client made from the loaded configuration. -/
theorem provider_without_override_witness :
    ((grantingWorld "" "").Getenv "CUSTOM_AWS_ACCESS_KEY" = "" ∨
      (grantingWorld "" "").Getenv "CUSTOM_AWS_SECRET_ACCESS_KEY" = "") ∧
    (grantingWorld "" "").LoadDefaultConfig roleConfig.AssumeRole.STSRegion =
      .ok { Region := "us-west-2", Credentials := .cache (.chain 0), settings := 0 } ∧
    roleConfig.AssumeRole.ARN ≠ "" ∧
    getCredsProviderFromConfig (grantingWorld "" "") (some roleConfig) =
      ⟨.returned
        (some (.cache (.assumeRole
          { options := { Region := "us-west-2", Credentials := .cache (.chain 0), settings := 0 } }
          "arn:aws:iam::123456789012:role/collector")), none),
       [.LoadDefaultConfig "us-west-2", .Getenv "CUSTOM_AWS_ACCESS_KEY",
        .Getenv "CUSTOM_AWS_SECRET_ACCESS_KEY",
        .Retrieve (.cache (.assumeRole
          { options := { Region := "us-west-2", Credentials := .cache (.chain 0), settings := 0 } }
          "arn:aws:iam::123456789012:role/collector")),
        .Retrieve (.assumeRole
          { options := { Region := "us-west-2", Credentials := .cache (.chain 0), settings := 0 } }
          "arn:aws:iam::123456789012:role/collector"),
        .Retrieve (.cache (.chain 0)), .Retrieve (.chain 0)]⟩ :=
  ⟨Or.inl (by decide), rfl, by decide,
    ((provider_without_override (grantingWorld "" "") roleConfig
      { Region := "us-west-2", Credentials := .cache (.chain 0), settings := 0 }
      (Or.inl (by decide)) rfl).1 (by decide)).1⟩

/-- C8: the default configuration is loaded once, first, with the region
`cfg.AssumeRole.STSRegion`, and resolution reads nothing else of the
configuration than the assume-role block: two configurations with the same
ARN and the same STS region run identically in the same world, whatever
their `Region`, `Service` and `credsProvider`. -/
theorem resolution_reads_only_assume_role (w : World) (c1 c2 : Config)
    (harn : c1.AssumeRole.ARN = c2.AssumeRole.ARN)
    (hreg : c1.AssumeRole.STSRegion = c2.AssumeRole.STSRegion) :
    getCredsProviderFromConfig w (some c1) = getCredsProviderFromConfig w (some c2) ∧
    ∃ rest, (getCredsProviderFromConfig w (some c1)).trace =
        .LoadDefaultConfig c1.AssumeRole.STSRegion :: rest ∧
      ∀ r, Event.LoadDefaultConfig r ∉ rest := by
  constructor
  · have hsel : ∀ awscfg, selectCredentials w c1 awscfg = selectCredentials w c2 awscfg := by
      intro awscfg
      simp only [selectCredentials, harn]
    simp only [getCredsProviderFromConfig, hreg, hsel]
  · cases hload : w.LoadDefaultConfig c1.AssumeRole.STSRegion with
    | error err =>
      rw [getCreds_load_failed w c1 err hload]
      exact ⟨[], rfl, by simp⟩
    | ok awscfg =>
      rw [getCreds_loaded w c1 awscfg hload]
      refine ⟨[Event.Getenv "CUSTOM_AWS_ACCESS_KEY", Event.Getenv "CUSTOM_AWS_SECRET_ACCESS_KEY"] ++
        ((selectCredentials w c1 awscfg).Credentials.Retrieve w).2, rfl, ?_⟩
      intro r hr
      rw [List.mem_append] at hr
      rcases hr with hr | hr
      · simp at hr
      · obtain ⟨q, hq⟩ := Retrieve_trace_events w _ _ hr
        cases hq

/-- C8, at a concrete input: two configurations that differ in `Region` and
`Service` only resolve identically. -/
theorem resolution_reads_only_assume_role_witness :
    roleConfig.AssumeRole.ARN =
      ({ roleConfig with Region := "ap-south-1", Service := "es" } : Config).AssumeRole.ARN ∧
    roleConfig.AssumeRole.STSRegion =
      ({ roleConfig with Region := "ap-south-1", Service := "es" } : Config).AssumeRole.STSRegion ∧
    roleConfig.Region ≠
      ({ roleConfig with Region := "ap-south-1", Service := "es" } : Config).Region ∧
    getCredsProviderFromConfig (sampleWorld "" "") (some roleConfig) =
      getCredsProviderFromConfig (sampleWorld "" "")
        (some { roleConfig with Region := "ap-south-1", Service := "es" }) :=
  ⟨rfl, rfl, by decide,
    (resolution_reads_only_assume_role (sampleWorld "" "") roleConfig
      { roleConfig with Region := "ap-south-1", Service := "es" } rfl rfl).1⟩

/-! ## The transport factory and the unimplemented capability -/

/-- C4: for every receiver, nil included, and in every world,
`PerRPCCredentials` returns a nil credentials object and the non-nil error
whose message is "Not Implemented", and makes no call into the world. -/
theorem PerRPCCredentials_not_implemented (w : World) (sa : Option Sigv4Auth) :
    Sigv4Auth.PerRPCCredentials w sa =
        ⟨.returned (none, some ⟨"Not Implemented"⟩), []⟩ ∧
    ∀ creds e, (Sigv4Auth.PerRPCCredentials w sa).outcome = .returned (creds, e) →
      creds = none ∧ e ≠ none ∧ e.map GoError.msg = some "Not Implemented" := by
  refine ⟨rfl, ?_⟩
  intro creds e h
  simp only [Sigv4Auth.PerRPCCredentials, errors.New, Outcome.returned.injEq,
    Prod.mk.injEq] at h
  obtain ⟨h1, h2⟩ := h
  subst h1 h2
  simp

/-- C7: for every extension whose configuration is non-nil and every base
transport, nil included, `RoundTripper` returns a nil error and a
`SigningRoundTripper` whose transport is the base, whose region and service
are the configuration's, whose credentials provider is the configuration's,
whose SDK info and logger are the extension's, and whose signer is a new
default signer. -/
theorem RoundTripper_builds_transport (w : World) (sa : Sigv4Auth) (cfg : Config)
    (base : Option Transport) (hcfg : sa.cfg = some cfg) :
    (Sigv4Auth.RoundTripper w (some sa) base).1.outcome =
      .returned
        (some { transport := base
                signer := sigv4.NewSigner
                region := cfg.Region
                service := cfg.Service
                credsProvider := cfg.credsProvider
                awsSDKInfo := sa.awsSDKInfo
                logger := sa.logger },
         none) := by
  simp only [Sigv4Auth.RoundTripper, hcfg]

/-- C7, at a concrete input: a nil base transport is wrapped without
error. -/
theorem RoundTripper_builds_transport_witness :
    (Sigv4Auth.RoundTripper offlineWorld
      (some { cfg := some roleConfig, logger := some ⟨7⟩, awsSDKInfo := "aws-sdk-go-v2/1.30.0" })
      none).1.outcome =
      .returned
        (some { transport := none
                signer := sigv4.NewSigner
                region := "us-east-1"
                service := "execute-api"
                credsProvider := none
                awsSDKInfo := "aws-sdk-go-v2/1.30.0"
                logger := some ⟨7⟩ },
         none) :=
  RoundTripper_builds_transport offlineWorld
    { cfg := some roleConfig, logger := some ⟨7⟩, awsSDKInfo := "aws-sdk-go-v2/1.30.0" }
    roleConfig none rfl

/-- C9: `RoundTripper` gives the transport exactly the configuration's
credentials provider, leaves the receiver (and with it the configuration)
as it found it, and makes no call into the world; so a second call, on the
receiver as the first one left it, with another base and in another world,
yields a transport holding the same provider. -/
theorem credsProvider_never_reresolved (w1 w2 : World) (sa : Sigv4Auth) (cfg : Config)
    (b1 b2 : Option Transport) (hcfg : sa.cfg = some cfg) :
    ∃ rt1 rt2,
      (Sigv4Auth.RoundTripper w1 (some sa) b1).1 = ⟨.returned (some rt1, none), []⟩ ∧
      (Sigv4Auth.RoundTripper w1 (some sa) b1).2 = some sa ∧
      (Sigv4Auth.RoundTripper w2 (Sigv4Auth.RoundTripper w1 (some sa) b1).2 b2).1 =
        ⟨.returned (some rt2, none), []⟩ ∧
      rt1.credsProvider = cfg.credsProvider ∧
      rt2.credsProvider = rt1.credsProvider ∧
      Sigv4Auth.RoundTripper w1 (some sa) b1 = Sigv4Auth.RoundTripper w2 (some sa) b1 := by
  obtain ⟨c, l, i⟩ := sa
  cases hcfg
  exact ⟨_, _, rfl, rfl, rfl, rfl, rfl, rfl⟩

/-- C9, at a concrete input: two calls in two different worlds and with
two different bases hold the same provider. -/
theorem credsProvider_never_reresolved_witness :
    ∃ rt1 rt2,
      (Sigv4Auth.RoundTripper offlineWorld
        (some { cfg := some { plainConfig with credsProvider := some (.cache (.chain 0)) },
                logger := none, awsSDKInfo := "aws-sdk-go-v2/1.30.0" })
        none).1.outcome = .returned (some rt1, none) ∧
      (Sigv4Auth.RoundTripper (sampleWorld "AKIDOVERRIDE" "override-secret")
        (some { cfg := some { plainConfig with credsProvider := some (.cache (.chain 0)) },
                logger := none, awsSDKInfo := "aws-sdk-go-v2/1.30.0" })
        (some ⟨3⟩)).1.outcome = .returned (some rt2, none) ∧
      rt1.credsProvider = some (.cache (.chain 0)) ∧
      rt2.credsProvider = rt1.credsProvider :=
  (credsProvider_never_reresolved offlineWorld (sampleWorld "AKIDOVERRIDE" "override-secret")
    { cfg := some { plainConfig with credsProvider := some (.cache (.chain 0)) },
      logger := none, awsSDKInfo := "aws-sdk-go-v2/1.30.0" }
    { plainConfig with credsProvider := some (.cache (.chain 0)) }
    none (some ⟨3⟩) rfl).elim
    fun rt1 h => h.elim fun rt2 h =>
      ⟨rt1, rt2, congrArg Run.outcome h.1, congrArg Run.outcome h.2.2.1, h.2.2.2.1,
        h.2.2.2.2.1⟩

/-- C3: when resolution failed (it returned an error, and with it a nil
provider) and the extension's configuration holds what resolution returned,
`RoundTripper` hands out no usable signing transport, in any world and for
any base: whatever transport it returns holds no credentials provider, and
the call makes no attempt at resolving one. -/
theorem failed_resolution_no_usable_transport (w w2 : World) (cfg : Config)
    (p : Option CredentialsProvider) (err : GoError)
    (sa : Sigv4Auth) (base : Option Transport)
    (hres : (getCredsProviderFromConfig w (some cfg)).outcome = .returned (p, some err))
    (hcfg : ∀ c, sa.cfg = some c → c.credsProvider = p) :
    p = none ∧
    (Sigv4Auth.RoundTripper w2 (some sa) base).1.trace = [] ∧
    ∀ rt e, (Sigv4Auth.RoundTripper w2 (some sa) base).1.outcome = .returned (some rt, e) →
      rt.credsProvider = none ∧ rt.usable = false := by
  have hp := getCreds_error_provider_nil w cfg p err hres
  subst hp
  obtain ⟨c, l, i⟩ := sa
  cases c with
  | none =>
    refine ⟨rfl, rfl, ?_⟩
    intro rt e hrt
    simp [Sigv4Auth.RoundTripper] at hrt
  | some c =>
    have hc : c.credsProvider = none := hcfg c rfl
    refine ⟨rfl, rfl, ?_⟩
    intro rt e hrt
    simp only [Sigv4Auth.RoundTripper, Outcome.returned.injEq, Prod.mk.injEq,
      Option.some.injEq] at hrt
    obtain ⟨hrt, -⟩ := hrt
    subst hrt
    simp [SigningRoundTripper.usable, hc]

/-- C3, at a concrete input: nothing can be loaded, resolution fails with a
nil provider, and the transport `RoundTripper` returns for the extension
built over that configuration is not usable. -/
theorem failed_resolution_no_usable_transport_witness :
    (getCredsProviderFromConfig offlineWorld (some plainConfig)).outcome =
      .returned (none, some ⟨"failed to load default config"⟩) ∧
    ∃ rt,
      (Sigv4Auth.RoundTripper offlineWorld
        (NewSigv4Extension "aws-sdk-go-v2" "1.30.0"
          (some { plainConfig with credsProvider := none }) (some ⟨7⟩))
        (some ⟨1⟩)).1.outcome = .returned (some rt, none) ∧
      rt.credsProvider = none ∧ rt.usable = false :=
  ⟨rfl, _, rfl,
    (failed_resolution_no_usable_transport offlineWorld offlineWorld plainConfig
      none ⟨"failed to load default config"⟩
      { cfg := some { plainConfig with credsProvider := none },
        logger := some ⟨7⟩, awsSDKInfo := "aws-sdk-go-v2/1.30.0" }
      (some ⟨1⟩) rfl (fun _ hc => by cases hc; rfl)).2.2 _ none rfl⟩

end sigv4authextension
